import Mathlib

/-!
Verification development for the pomodoro-spotify-player repository.

The program is a browser client (`src/src/App.tsx` and the two unnamed
variants, with `src/unnamed/part_001` being the richest implementation:
it is the only one with refresh-token handling).  This file gives a
shallow embedding of the parts of that code the claims are about:

* the persisted credential (four `localStorage` keys) and the functions
  `refreshAccessToken` / `getValidAccessToken` (part_001 lines 159-221);
* the deadline-based pomodoro timer: the `setInterval` callback
  (lines 498-529), `toggleTimer` (454-462) and the visibility resync
  (561-573);
* the playback synchronizer effect (549-558);
* the resource-client calls `getPlaybackState` / `handlePlay` /
  `handlePause` (350-451) with their 401-refresh-retry policy;
* the PKCE helpers `generateCodeVerifier` / `generateCodeChallenge`
  (136-156).

Host primitives (wall clock, HTTP responses, the outcome of the token
exchange, `Math.random` draws, the SHA-256 digest) are passed in as
explicit oracle arguments; `localStorage` is passed as an explicit
`Storage` value and returned updated.  Effects that the claims observe
(network requests issued, `setError` calls, `setPlaybackState` calls,
refresh invocations) are collected in result records.
-/

/-- JavaScript truthiness of a possibly-absent string: `null` and the
empty string are falsy. -/
def optTruthyStr : Option String → Bool
  | none => false
  | some s => s != ""

/-- JavaScript truthiness of a possibly-absent number: `null`, `NaN`
and `0` are falsy (a non-numeric stored string parses to `NaN`, which
we fold into `none`). -/
def optTruthyInt : Option Int → Bool
  | none => false
  | some v => v != 0

/-- The persisted credential: the four `localStorage` keys
`access_token`, `refresh_token`, `expires_in`, `expires_at`.  The two
numeric keys are stored as decimal strings in the browser and read back
through `parseInt`; since every write the program performs stores
`String(n)` for an integer `n`, the store is modelled with the parsed
values (with `none` standing for a missing key or a `NaN` parse). -/
structure Storage where
  accessToken : Option String
  refreshToken : Option String
  expiresIn : Option Int
  expiresAt : Option Int
deriving DecidableEq

/-- Body of a successful token-endpoint response, as consumed by
`refreshAccessToken` (part_001 line 179): `access_token`, `expires_in`
and an optional rotated `refresh_token`. -/
structure TokenData where
  access_token : String
  expires_in : Int
  refresh_token : Option String
deriving DecidableEq

/-- Outcome of one refresh-token exchange at the token endpoint:
a network error (the `fetch` or the body parse threw), a non-success
HTTP status (`!response.ok`), or a parsed success body. -/
inductive RefreshOutcome
  | netError
  | httpFail (status : Nat)
  | success (data : TokenData)
deriving DecidableEq

/-- Predicate picking the two failure outcomes of the exchange. -/
def RefreshOutcome.isFailure : RefreshOutcome → Bool
  | .netError => true
  | .httpFail _ => true
  | .success _ => false

/-- Embedding of `refreshAccessToken` (part_001 lines 159-207): bail out
with `false` when no refresh token is stored; on a failed exchange
return `false` leaving the store untouched; on success persist the new
access token, `expires_in`, the recomputed absolute `expires_at`, and
the rotated refresh token only when the response carries a truthy one.
The proactive-refresh `setTimeout` and the React `setToken` call touch
no persisted state and are outside this model. -/
def refreshAccessToken (now : Int) (st : Storage) (o : RefreshOutcome) : Bool × Storage :=
  if !optTruthyStr st.refreshToken then (false, st)
  else
    match o with
    | .netError => (false, st)
    | .httpFail _ => (false, st)
    | .success d =>
      let newExpiresAt := now + d.expires_in * 1000
      (true,
        { st with
          accessToken := some d.access_token
          expiresIn := some d.expires_in
          expiresAt := some newExpiresAt
          refreshToken :=
            match d.refresh_token with
            | some r => if r != "" then some r else st.refreshToken
            | none => st.refreshToken })

/-- Result of `getValidAccessToken`: the returned token (or `null`),
the store afterwards, and how many times `refreshAccessToken` ran. -/
structure TokenFetch where
  result : Option String
  store : Storage
  refreshCalls : Nat
deriving DecidableEq

/-- Embedding of `getValidAccessToken` (part_001 lines 210-221): return
the stored token when it and its expiry are truthy and
`Date.now() < expiresAt - 5000`; otherwise run `refreshAccessToken`
and return the freshly stored token on success, `null` on failure. -/
def getValidAccessToken (now : Int) (st : Storage) (o : RefreshOutcome) : TokenFetch :=
  if optTruthyStr st.accessToken && optTruthyInt st.expiresAt
      && decide (now < st.expiresAt.getD 0 - 5000) then
    { result := st.accessToken, store := st, refreshCalls := 0 }
  else
    let r := refreshAccessToken now st o
    { result := if r.1 then r.2.accessToken else none, store := r.2, refreshCalls := 1 }

/-- C7: if the refresh-token exchange fails (non-success HTTP status or
network error), `refreshAccessToken` returns failure and the persisted
credential — all four stored keys — is exactly what it was before the
call. -/
theorem refreshAccessToken_failure_atomic (now : Int) (st : Storage) (o : RefreshOutcome)
    (h : o.isFailure = true) :
    refreshAccessToken now st o = (false, st) := by
  cases o with
  | netError => unfold refreshAccessToken; split <;> rfl
  | httpFail s => unfold refreshAccessToken; split <;> rfl
  | success d => simp [RefreshOutcome.isFailure] at h

/-- Witness for C7 at a concrete credential and a concrete HTTP 400
failure. -/
theorem refreshAccessToken_failure_atomic_witness :
    refreshAccessToken 0 ⟨some "a", some "r", some 3600, some 9000⟩ (.httpFail 400)
      = (false, ⟨some "a", some "r", some 3600, some 9000⟩) :=
  refreshAccessToken_failure_atomic 0 ⟨some "a", some "r", some 3600, some 9000⟩ (.httpFail 400) rfl

/-- C2: `getValidAccessToken` returns the stored access token
immediately, without invoking refresh, when the token is present and
its stored expiry is more than 5 seconds past `now`; in every other
case (token or expiry missing or falsy, or expiry within the 5-second
margin) it invokes refresh exactly once and returns the freshly stored
token on refresh success, `null` on refresh failure. -/
theorem getValidAccessToken_spec (now : Int) (st : Storage) (o : RefreshOutcome)
    (t : String) (ea : Int) (d : TokenData) :
    (0 ≤ now → st.accessToken = some t → t ≠ "" → st.expiresAt = some ea →
      now + 5000 < ea →
      getValidAccessToken now st o = ⟨some t, st, 0⟩)
    ∧ ((optTruthyStr st.accessToken && optTruthyInt st.expiresAt
          && decide (now < st.expiresAt.getD 0 - 5000)) = false →
        getValidAccessToken now st o =
          ⟨if (refreshAccessToken now st o).1 then (refreshAccessToken now st o).2.accessToken
            else none,
           (refreshAccessToken now st o).2, 1⟩)
    ∧ (o = .success d → optTruthyStr st.refreshToken = true →
        (optTruthyStr st.accessToken && optTruthyInt st.expiresAt
          && decide (now < st.expiresAt.getD 0 - 5000)) = false →
        (getValidAccessToken now st o).result = some d.access_token
        ∧ (getValidAccessToken now st o).refreshCalls = 1)
    ∧ ((refreshAccessToken now st o).1 = false →
        (optTruthyStr st.accessToken && optTruthyInt st.expiresAt
          && decide (now < st.expiresAt.getD 0 - 5000)) = false →
        (getValidAccessToken now st o).result = none
        ∧ (getValidAccessToken now st o).refreshCalls = 1) := by
  refine ⟨?_, ?_, ?_, ?_⟩
  · intro hnow hat ht hea hlt
    have hea0 : ea ≠ 0 := by omega
    have : (optTruthyStr st.accessToken && optTruthyInt st.expiresAt
        && decide (now < st.expiresAt.getD 0 - 5000)) = true := by
      rw [hat, hea]
      simp [optTruthyStr, optTruthyInt, bne_iff_ne, ht, hea0]
      omega
    rw [getValidAccessToken, if_pos this, hat]
  · intro hguard
    rw [getValidAccessToken, if_neg (by simp [hguard])]
  · intro ho hrt hguard
    subst ho
    rw [getValidAccessToken, if_neg (by simp [hguard])]
    simp [refreshAccessToken, hrt]
  · intro hfail hguard
    rw [getValidAccessToken, if_neg (by simp [hguard])]
    simp [hfail]

/-- Witness for C2: a fresh credential (expiry 10000 ms past `now = 0`)
is returned without refresh, while a credential with
`expiresAt = now + 3000` (inside the 5-second margin) triggers a
refresh and yields the newly stored token. -/
theorem getValidAccessToken_spec_witness :
    getValidAccessToken 0 ⟨some "tok", some "r", some 3600, some 10000⟩
        (.success ⟨"newtok", 3600, none⟩)
      = ⟨some "tok", ⟨some "tok", some "r", some 3600, some 10000⟩, 0⟩
    ∧ (getValidAccessToken 0 ⟨some "tok", some "r", some 3600, some 3000⟩
        (.success ⟨"newtok", 3600, none⟩)).result = some "newtok" := by
  constructor
  · exact (getValidAccessToken_spec 0 ⟨some "tok", some "r", some 3600, some 10000⟩
      (.success ⟨"newtok", 3600, none⟩) "tok" 10000 ⟨"newtok", 3600, none⟩).1
      (by decide) rfl (by decide) rfl (by decide)
  · exact ((getValidAccessToken_spec 0 ⟨some "tok", some "r", some 3600, some 3000⟩
      (.success ⟨"newtok", 3600, none⟩) "tok" 3000 ⟨"newtok", 3600, none⟩).2.2.1
      rfl (by decide) (by decide)).1

/-- Pomodoro configuration: the three settings inputs (`workMinutes`,
`breakMinutes`, `totalPomodoros`). -/
structure PomodoroConfig where
  workMinutes : Nat
  breakMinutes : Nat
  totalPomodoros : Nat
deriving DecidableEq

/-- The timer state held in the component: `isWorking` (Work vs Break
phase), `currentPomodoro` (zero-based cycle index), `timeLeft` in whole
seconds, the `isRunning` and `timerComplete` flags, and the absolute
deadline `endTimeRef.current` in ms. -/
structure TimerState where
  isWorking : Bool
  currentPomodoro : Nat
  timeLeft : Int
  isRunning : Bool
  timerComplete : Bool
  endTime : Int
deriving DecidableEq

/-- JavaScript `Math.ceil(x / d)` on integer ms values, for a positive
divisor: negated floor division of the negation. -/
def jsCeilDiv (x d : Int) : Int := -((-x) / d)

/-- Embedding of the `setInterval` callback of the timer effect
(part_001 lines 498-529).  The interval only exists while the effect
guard `isRunning && !timerComplete` holds, so outside that guard a tick
changes nothing.  At or past the deadline (`remainingMs <= 0`): during
Work, either all pomodoros are done (`nextPomodoro >= totalPomodoros`:
mark complete, stop) or enter Break with `breakMinutes * 60` seconds and
the incremented pomodoro count; during Break, re-enter Work with
`workMinutes * 60` seconds.  Before the deadline the display is set to
`Math.ceil(remainingMs / 1000)`. -/
def tick (cfg : PomodoroConfig) (s : TimerState) (now : Int) : TimerState :=
  if s.isRunning && !s.timerComplete then
    let remainingMs := s.endTime - now
    if remainingMs ≤ 0 then
      if s.isWorking then
        let nextPomodoro := s.currentPomodoro + 1
        if cfg.totalPomodoros ≤ nextPomodoro then
          { s with timeLeft := 0, timerComplete := true, isRunning := false }
        else
          { s with timeLeft := (cfg.breakMinutes : Int) * 60, isWorking := false,
                   currentPomodoro := nextPomodoro }
      else
        { s with timeLeft := (cfg.workMinutes : Int) * 60, isWorking := true }
    else
      { s with timeLeft := jsCeilDiv remainingMs 1000 }
  else s

/-- Embedding of the `onVisibilityChange` recomputation (part_001 lines
561-573): on returning to the foreground the display is recomputed as
`Math.max(0, Math.ceil((endTime - now) / 1000))`. -/
def resyncTimeLeft (endTime now : Int) : Int :=
  max 0 (jsCeilDiv (endTime - now) 1000)

/-- Embedding of `toggleTimer` (part_001 lines 454-462): when the run
is complete, restart it (Work phase, pomodoro 0, full work time); then
flip `isRunning`. -/
def toggleTimer (cfg : PomodoroConfig) (s : TimerState) : TimerState :=
  let s1 :=
    if s.timerComplete then
      { s with isWorking := true, currentPomodoro := 0,
               timeLeft := (cfg.workMinutes : Int) * 60, timerComplete := false }
    else s
  { s1 with isRunning := !s.isRunning }

/-- C1: phase transitions of the timer.  When a tick fires at or past
the deadline in a Work phase: if `currentPomodoro + 1 >= totalPomodoros`
the timer becomes Complete with `isRunning = false`; otherwise it enters
Break with `breakMinutes * 60` seconds left and the pomodoro count
incremented.  At or past the deadline in a Break phase it always
re-enters Work with `workMinutes * 60` seconds left and the pomodoro
count unchanged.  A Complete state is terminal for `tick`. -/
theorem tick_phase_transition (cfg : PomodoroConfig) (s s' : TimerState) (now now' : Int)
    (hrun : s.isRunning = true) (hnc : s.timerComplete = false) (hdl : s.endTime ≤ now) :
    (s.isWorking = true → cfg.totalPomodoros ≤ s.currentPomodoro + 1 →
      tick cfg s now = { s with timeLeft := 0, timerComplete := true, isRunning := false })
    ∧ (s.isWorking = true → s.currentPomodoro + 1 < cfg.totalPomodoros →
      tick cfg s now = { s with timeLeft := (cfg.breakMinutes : Int) * 60,
                                isWorking := false,
                                currentPomodoro := s.currentPomodoro + 1 })
    ∧ (s.isWorking = false →
      tick cfg s now = { s with timeLeft := (cfg.workMinutes : Int) * 60, isWorking := true })
    ∧ (s'.timerComplete = true → tick cfg s' now' = s') := by
  refine ⟨?_, ?_, ?_, ?_⟩
  · intro hw hdone
    rw [tick, if_pos (by rw [hrun, hnc]; rfl), if_pos (by omega), if_pos hw,
      if_pos hdone]
  · intro hw hmore
    rw [tick, if_pos (by rw [hrun, hnc]; rfl), if_pos (by omega), if_pos hw,
      if_neg (by omega)]
  · intro hw
    rw [tick, if_pos (by rw [hrun, hnc]; rfl), if_pos (by omega), if_neg (by rw [hw]; simp)]
  · intro hc
    rw [tick, if_neg (by rw [hc]; simp)]

/-- Witness for C1 with workMinutes=25, breakMinutes=5, totalPomodoros=4:
a Work expiry at pomodoro 1 enters Break at pomodoro 2 with 300 seconds,
and a Complete state is untouched by a tick. -/
theorem tick_phase_transition_witness :
    tick ⟨25, 5, 4⟩ ⟨true, 1, 7, true, false, 1000⟩ 2500
      = ⟨false, 2, 300, true, false, 1000⟩
    ∧ tick ⟨25, 5, 4⟩ ⟨true, 3, 0, false, true, 1000⟩ 2500
      = ⟨true, 3, 0, false, true, 1000⟩ := by
  have h := tick_phase_transition ⟨25, 5, 4⟩ ⟨true, 1, 7, true, false, 1000⟩
    ⟨true, 3, 0, false, true, 1000⟩ 2500 2500 rfl rfl (by decide)
  exact ⟨h.2.1 rfl (by decide), h.2.2.2 rfl⟩

/-- C8: a tick on a Running (non-complete) state never decreases the
pomodoro count and never leaves a negative `timeLeft`; the
foreground-resync recomputation is never negative either. -/
theorem tick_invariant (cfg : PomodoroConfig) (s : TimerState) (now e n : Int)
    (hrun : s.isRunning = true) (hnc : s.timerComplete = false) :
    (s.currentPomodoro ≤ (tick cfg s now).currentPomodoro
      ∧ 0 ≤ (tick cfg s now).timeLeft)
    ∧ 0 ≤ resyncTimeLeft e n := by
  refine ⟨?_, le_max_left 0 _⟩
  rw [tick, if_pos (by rw [hrun, hnc]; rfl)]
  by_cases hexp : s.endTime - now ≤ 0
  · rw [if_pos hexp]
    by_cases hw : s.isWorking = true
    · rw [if_pos hw]
      by_cases hdone : cfg.totalPomodoros ≤ s.currentPomodoro + 1
      · rw [if_pos hdone]; exact ⟨le_refl _, le_refl 0⟩
      · rw [if_neg hdone]
        exact ⟨Nat.le_succ _, by positivity⟩
    · rw [if_neg hw]
      exact ⟨le_refl _, by positivity⟩
  · rw [if_neg hexp]
    refine ⟨le_refl _, ?_⟩
    have hpos : 0 < s.endTime - now := by omega
    have hneg : -(s.endTime - now) / 1000 < 0 :=
      Int.ediv_neg' (by omega) (by omega)
    simp only [jsCeilDiv]
    omega

/-- Witness for C8: the visibility-resync scenario (deadline 30 seconds
out, resynced 90 seconds later) clamps to 0 rather than going negative,
and a mid-phase tick keeps the count and a non-negative display. -/
theorem tick_invariant_witness :
    (1 ≤ (tick ⟨25, 5, 4⟩ ⟨true, 1, 7, true, false, 10000⟩ 5000).currentPomodoro
      ∧ 0 ≤ (tick ⟨25, 5, 4⟩ ⟨true, 1, 7, true, false, 10000⟩ 5000).timeLeft)
    ∧ 0 ≤ resyncTimeLeft 30000 90000 :=
  tick_invariant ⟨25, 5, 4⟩ ⟨true, 1, 7, true, false, 10000⟩ 5000 30000 90000 rfl rfl

/-- C9: starting from a Running state, invoking the start/pause toggle
twice in a row leaves `timeLeft` exactly what it was after the first
invocation (the first invocation is the pause; the second changes the
run flag only). -/
theorem toggleTimer_pause_idempotent (cfg : PomodoroConfig) (s : TimerState)
    (hrun : s.isRunning = true) :
    (toggleTimer cfg (toggleTimer cfg s)).timeLeft = (toggleTimer cfg s).timeLeft := by
  by_cases hc : s.timerComplete = true
  · simp [toggleTimer, hc]
  · simp at hc
    simp [toggleTimer, hc]

/-- Witness for C9 at a concrete Running state. -/
theorem toggleTimer_pause_idempotent_witness :
    (toggleTimer ⟨25, 5, 4⟩ (toggleTimer ⟨25, 5, 4⟩ ⟨true, 1, 742, true, false, 99000⟩)).timeLeft
      = (toggleTimer ⟨25, 5, 4⟩ ⟨true, 1, 742, true, false, 99000⟩).timeLeft :=
  toggleTimer_pause_idempotent ⟨25, 5, 4⟩ ⟨true, 1, 742, true, false, 99000⟩ rfl

/-- The two playback commands the synchronizer can issue. -/
inductive PlaybackCmd
  | play
  | pause
deriving DecidableEq

/-- Embedding of the playback-sync effect (part_001 lines 549-558): when
a token is present, `(isWorking, isRunning) = (true, true)` invokes
`handlePlay` and every other combination invokes `handlePause`; with no
token nothing is invoked. -/
def syncPlayback (token : Option String) (isWorking isRunning : Bool) : Option PlaybackCmd :=
  if optTruthyStr token then
    if isWorking && isRunning then some .play else some .pause
  else none

/-- C4: whenever the sync effect fires with a credential present, the
combination (Work, running) issues exactly a play command and each of
the three other combinations issues a pause command. -/
theorem syncPlayback_rule (t : String) (ht : t ≠ "") :
    syncPlayback (some t) true true = some .play
    ∧ syncPlayback (some t) true false = some .pause
    ∧ syncPlayback (some t) false true = some .pause
    ∧ syncPlayback (some t) false false = some .pause := by
  have htr : optTruthyStr (some t) = true := by
    simp [optTruthyStr, bne_iff_ne, ht]
  refine ⟨?_, ?_, ?_, ?_⟩ <;> simp [syncPlayback, htr]

/-- Witness for C4 at a concrete token. -/
theorem syncPlayback_rule_witness :
    syncPlayback (some "tok") true true = some .play
    ∧ syncPlayback (some "tok") true false = some .pause
    ∧ syncPlayback (some "tok") false true = some .pause
    ∧ syncPlayback (some "tok") false false = some .pause :=
  syncPlayback_rule "tok" (by decide)

/-- Opaque parsed body of a playback-state response. -/
structure PlaybackData where
  id : Nat
deriving DecidableEq

/-- A `setPlaybackState` call: either the 204 "no active device"
message or a parsed snapshot. -/
inductive PbState
  | noDevice
  | snapshot (d : PlaybackData)
deriving DecidableEq

/-- One response of the playback-state endpoint: a thrown network/parse
error, or an HTTP status with body (the body is only read on 2xx). -/
inductive PbResponse
  | netError
  | resp (status : Nat) (body : PlaybackData)
deriving DecidableEq

/-- Observable outcome of a `getPlaybackState` call: bearer tokens of
the requests issued in order, the `setPlaybackState` calls in order,
whether `setError` ran, the number of `refreshAccessToken` invocations,
and the store afterwards. -/
structure PbResult where
  requests : List String
  snapshots : List PbState
  errorSet : Bool
  refreshCalls : Nat
  store : Storage
deriving DecidableEq

/-- JavaScript expression `localStorage.getItem("access_token") ||
accessToken`: the stored token unless it is absent or empty. -/
def jsOrToken (o : Option String) (fallback : String) : String :=
  match o with
  | some t => if t != "" then t else fallback
  | none => fallback

/-- Embedding of `getPlaybackState` (part_001 lines 350-377).  Each call
consumes the next response of the oracle list (an exhausted oracle acts
as a network error).  On 401 it runs `refreshAccessToken` (consuming the
next refresh outcome) and, if that succeeds, calls itself again with the
freshly stored token — the code places no bound on this recursion, so a
retry that is 401 again refreshes again.  If the refresh fails, control
falls through to the `!response.ok` throw and `setError` runs.  A 204
records the "no active device" message; a 2xx records the parsed
snapshot; any other status throws and `setError` runs. -/
def getPlaybackState (now : Int) :
    String → Storage → List PbResponse → List RefreshOutcome → PbResult
  | accessToken, st, [], _ =>
    ⟨[accessToken], [], true, 0, st⟩
  | accessToken, st, PbResponse.netError :: _, _ =>
    ⟨[accessToken], [], true, 0, st⟩
  | accessToken, st, PbResponse.resp status body :: rest, refreshes =>
    if status = 401 then
      let r := refreshAccessToken now st (refreshes.headD .netError)
      if r.1 then
        let out := getPlaybackState now (jsOrToken r.2.accessToken accessToken) r.2 rest
          refreshes.tail
        ⟨accessToken :: out.requests, out.snapshots, out.errorSet,
          1 + out.refreshCalls, out.store⟩
      else
        ⟨[accessToken], [], true, 1, r.2⟩
    else if status = 204 then
      ⟨[accessToken], [PbState.noDevice], false, 0, st⟩
    else if 200 ≤ status ∧ status ≤ 299 then
      ⟨[accessToken], [PbState.snapshot body], false, 0, st⟩
    else
      ⟨[accessToken], [], true, 0, st⟩

/-- Concrete store for the C3 counterexample run. -/
def c3Store : Storage := ⟨some "a", some "r", none, none⟩

/-- Concrete response sequence for the C3 counterexample run: 401, then
401 again on the retry, then 200. -/
def c3Responses : List PbResponse :=
  [.resp 401 ⟨0⟩, .resp 401 ⟨0⟩, .resp 200 ⟨7⟩]

/-- Concrete refresh outcomes for the C3 counterexample run: both
refresh exchanges succeed, delivering tokens "b" then "c". -/
def c3Refreshes : List RefreshOutcome :=
  [.success ⟨"b", 3600, none⟩, .success ⟨"c", 3600, none⟩]

/-- C3 counterexample: a single `getPlaybackState` call that receives
401, with the refresh succeeding, is claimed to invoke refresh exactly
once and retry exactly once; but on the response sequence 401, 401, 200
the call invokes refresh twice and issues three requests, because the
retry recurses into the same 401 handling. -/
theorem getPlaybackState_retry_counterexample :
    (getPlaybackState 0 "a" c3Store c3Responses c3Refreshes).refreshCalls = 2
    ∧ (getPlaybackState 0 "a" c3Store c3Responses c3Refreshes).requests = ["a", "b", "c"]
    ∧ ¬ (getPlaybackState 0 "a" c3Store c3Responses c3Refreshes).refreshCalls = 1 := by
  refine ⟨by decide, by decide, by decide⟩

/-- C3 as amended: on a 401 the call refreshes and, on refresh success,
retries with the freshly stored token, the same policy applying again to
the retry; so a 401-then-200 sequence yields exactly one snapshot, one
refresh and two requests (old then new token), and a 401 whose refresh
fails surfaces an error with no retry and no snapshot. -/
theorem getPlaybackState_retry_amended (now : Int) (tok : String) (st : Storage)
    (td : TokenData) (b d : PlaybackData) (fo : RefreshOutcome)
    (rest : List PbResponse) (fs : List RefreshOutcome) :
    (optTruthyStr st.refreshToken = true → td.access_token ≠ "" →
      getPlaybackState now tok st [.resp 401 b, .resp 200 d] (.success td :: fs)
        = ⟨[tok, td.access_token], [PbState.snapshot d], false, 1,
           (refreshAccessToken now st (.success td)).2⟩)
    ∧ ((refreshAccessToken now st fo).1 = false →
      getPlaybackState now tok st (.resp 401 b :: rest) (fo :: fs)
        = ⟨[tok], [], true, 1, (refreshAccessToken now st fo).2⟩) := by
  constructor
  · intro hrt hta
    have hfst : (refreshAccessToken now st (.success td)).1 = true := by
      unfold refreshAccessToken
      rw [hrt]
      rfl
    have hacc : (refreshAccessToken now st (.success td)).2.accessToken
        = some td.access_token := by
      unfold refreshAccessToken
      rw [hrt]
      rfl
    rw [getPlaybackState]
    rw [if_pos rfl]
    simp only [List.headD_cons, List.tail_cons, hfst, hacc, if_true]
    rw [getPlaybackState]
    simp [jsOrToken, hta]
  · intro hfail
    rw [getPlaybackState]
    rw [if_pos rfl]
    simp only [List.headD_cons, List.tail_cons, hfail]
    simp

/-- Witness for the amended C3: the 401-then-200 scenario on a concrete
store observes one snapshot and one refresh, and a 401 with a failed
refresh observes an error, one request and no snapshot. -/
theorem getPlaybackState_retry_amended_witness :
    getPlaybackState 0 "a" ⟨some "a", some "r", none, none⟩
        [.resp 401 ⟨0⟩, .resp 200 ⟨7⟩] [.success ⟨"b", 3600, none⟩]
      = ⟨["a", "b"], [PbState.snapshot ⟨7⟩], false, 1,
         (refreshAccessToken 0 ⟨some "a", some "r", none, none⟩
           (.success ⟨"b", 3600, none⟩)).2⟩
    ∧ getPlaybackState 0 "a" ⟨some "a", some "r", none, none⟩
        [.resp 401 ⟨0⟩] [.netError]
      = ⟨["a"], [], true, 1,
         (refreshAccessToken 0 ⟨some "a", some "r", none, none⟩ .netError).2⟩ := by
  constructor
  · exact (getPlaybackState_retry_amended 0 "a" ⟨some "a", some "r", none, none⟩
      ⟨"b", 3600, none⟩ ⟨0⟩ ⟨7⟩ .netError [] []).1 (by decide) (by decide)
  · exact (getPlaybackState_retry_amended 0 "a" ⟨some "a", some "r", none, none⟩
      ⟨"b", 3600, none⟩ ⟨0⟩ ⟨7⟩ .netError [] []).2 (by decide)

/-- One response of a playback PUT request: a thrown network error or an
HTTP status (the handlers never read a body). -/
inductive PutResponse
  | netError
  | status (code : Nat)
deriving DecidableEq

/-- Observable outcome of a `handlePlay` / `handlePause` call: bearer
tokens of the PUT requests issued in order (`none` when the retry reads
a missing stored token), whether `setError` ran, the number of
`refreshAccessToken` invocations, whether the deferred
playback-state refresh was scheduled, and the store afterwards. -/
structure PlayResult where
  requests : List (Option String)
  errorSet : Bool
  refreshCalls : Nat
  scheduledRefresh : Bool
  store : Storage
deriving DecidableEq

/-- Embedding of `handlePlay` (part_001 lines 380-414): obtain a token
via `getValidAccessToken` and return at once when it is falsy; otherwise
PUT the play endpoint; on 401 refresh once and, if that succeeds, retry
once with the stored token (the retry's status is not inspected);
finally schedule the deferred playback-state refresh.  A thrown request
is caught and `setError` runs. -/
def handlePlay (now : Int) (st : Storage) (vo : RefreshOutcome) (resp : PutResponse)
    (ro : RefreshOutcome) (retryResp : PutResponse) : PlayResult :=
  let v := getValidAccessToken now st vo
  if !optTruthyStr v.result then ⟨[], false, v.refreshCalls, false, v.store⟩
  else
    match resp with
    | .netError => ⟨[v.result], true, v.refreshCalls, false, v.store⟩
    | .status c =>
      if c = 401 then
        let r := refreshAccessToken now v.store ro
        if r.1 then
          match retryResp with
          | .netError => ⟨[v.result, r.2.accessToken], true, v.refreshCalls + 1, false, r.2⟩
          | .status _ => ⟨[v.result, r.2.accessToken], false, v.refreshCalls + 1, true, r.2⟩
        else ⟨[v.result], false, v.refreshCalls + 1, true, r.2⟩
      else ⟨[v.result], false, v.refreshCalls, true, v.store⟩

/-- Embedding of `handlePause` (part_001 lines 417-451): identical to
`handlePlay` except that it targets the pause endpoint. -/
def handlePause (now : Int) (st : Storage) (vo : RefreshOutcome) (resp : PutResponse)
    (ro : RefreshOutcome) (retryResp : PutResponse) : PlayResult :=
  let v := getValidAccessToken now st vo
  if !optTruthyStr v.result then ⟨[], false, v.refreshCalls, false, v.store⟩
  else
    match resp with
    | .netError => ⟨[v.result], true, v.refreshCalls, false, v.store⟩
    | .status c =>
      if c = 401 then
        let r := refreshAccessToken now v.store ro
        if r.1 then
          match retryResp with
          | .netError => ⟨[v.result, r.2.accessToken], true, v.refreshCalls + 1, false, r.2⟩
          | .status _ => ⟨[v.result, r.2.accessToken], false, v.refreshCalls + 1, true, r.2⟩
        else ⟨[v.result], false, v.refreshCalls + 1, true, r.2⟩
      else ⟨[v.result], false, v.refreshCalls, true, v.store⟩

/-- C10: when `getValidAccessToken` yields no token (stored token absent
or expired with the refresh failing), `handlePlay` and `handlePause`
return immediately: no playback request is issued, no error is set, and
nothing is scheduled. -/
theorem handlePlay_handlePause_no_token_noop (now : Int) (st : Storage)
    (vo : RefreshOutcome) (resp : PutResponse) (ro : RefreshOutcome)
    (retryResp : PutResponse)
    (h : (getValidAccessToken now st vo).result = none) :
    (handlePlay now st vo resp ro retryResp).requests = []
    ∧ (handlePlay now st vo resp ro retryResp).errorSet = false
    ∧ (handlePause now st vo resp ro retryResp).requests = []
    ∧ (handlePause now st vo resp ro retryResp).errorSet = false := by
  have hf : optTruthyStr (getValidAccessToken now st vo).result = false := by
    rw [h]; rfl
  refine ⟨?_, ?_, ?_, ?_⟩ <;>
    simp only [handlePlay, handlePause, hf, Bool.not_false, if_true]

/-- Witness for C10: with an empty store and a failing exchange no token
can be obtained, and both handlers do nothing observable. -/
theorem handlePlay_handlePause_no_token_noop_witness :
    (handlePlay 0 ⟨none, none, none, none⟩ .netError (.status 204) .netError
        (.status 204)).requests = []
    ∧ (handlePlay 0 ⟨none, none, none, none⟩ .netError (.status 204) .netError
        (.status 204)).errorSet = false
    ∧ (handlePause 0 ⟨none, none, none, none⟩ .netError (.status 204) .netError
        (.status 204)).requests = []
    ∧ (handlePause 0 ⟨none, none, none, none⟩ .netError (.status 204) .netError
        (.status 204)).errorSet = false :=
  handlePlay_handlePause_no_token_noop 0 ⟨none, none, none, none⟩ .netError
    (.status 204) .netError (.status 204) (by decide)

/-- The 66-character alphabet of `generateCodeVerifier` (part_001 lines
137-138). -/
def possibleChars : List Char :=
  "ABCDEFGHIJKLMNOPQRSTUVWXYZabcdefghijklmnopqrstuvwxyz0123456789-._~".toList

/-- JavaScript `s.charAt(i)` as a character list: a one-character list
in range, the empty list out of range. -/
def charAtJs (s : List Char) (i : Nat) : List Char :=
  match s.get? i with
  | some c => [c]
  | none => []

/-- Characters accumulated by the loop of `generateCodeVerifier`
(part_001 lines 139-143); `idx i` is the host's draw
`Math.floor(Math.random() * possible.length)` on iteration `i`. -/
def gcvChars (idx : Nat → Nat) : Nat → List Char
  | 0 => []
  | n + 1 => gcvChars idx n ++ charAtJs possibleChars (idx n)

/-- Embedding of `generateCodeVerifier` (part_001 lines 136-144). -/
def generateCodeVerifier (idx : Nat → Nat) (length : Nat) : String :=
  String.mk (gcvChars idx length)

/-- C6 structural part: assuming each host draw is below the alphabet
size (which holds since `Math.random()` is in `[0, 1)`), the verifier
has exactly `length` characters, all from the 66-character alphabet.
The claim's "cryptographically-strength random source" is a property of
the host primitive the code chose — `Math.random()` — not of this
arithmetic; it is settled outside this theorem. -/
theorem generateCodeVerifier_structure (idx : Nat → Nat) (n : Nat)
    (h : ∀ i, idx i < 66) :
    (generateCodeVerifier idx n).length = n
    ∧ ∀ c ∈ (generateCodeVerifier idx n).data, c ∈ possibleChars := by
  have hlen : possibleChars.length = 66 := rfl
  have key : ∀ m, (gcvChars idx m).length = m
      ∧ ∀ c ∈ gcvChars idx m, c ∈ possibleChars := by
    intro m
    induction m with
    | zero => exact ⟨rfl, fun c hc => absurd hc (List.not_mem_nil c)⟩
    | succ k ih =>
      have hil : idx k < possibleChars.length := by rw [hlen]; exact h k
      have hchar : charAtJs possibleChars (idx k)
          = [possibleChars.get ⟨idx k, hil⟩] := by
        rw [charAtJs, List.get?_eq_get hil]
      constructor
      · rw [gcvChars, List.length_append, ih.1, hchar]
        rfl
      · intro c hc
        rw [gcvChars, List.mem_append] at hc
        cases hc with
        | inl hc => exact ih.2 c hc
        | inr hc =>
          rw [hchar, List.mem_singleton] at hc
          rw [hc]
          exact List.get_mem possibleChars _ _
  exact ⟨key n |>.1, key n |>.2⟩

/-- Witness for C6's structural part at the default length 128, drawing
index 0 every time. -/
theorem generateCodeVerifier_structure_witness :
    (generateCodeVerifier (fun _ => 0) 128).length = 128
    ∧ ∀ c ∈ (generateCodeVerifier (fun _ => 0) 128).data, c ∈ possibleChars :=
  generateCodeVerifier_structure (fun _ => 0) 128 (fun _ => Nat.succ_pos 65)

/-- The standard base64 alphabet used by the browser's `btoa`. -/
def b64StdChars : List Char :=
  "ABCDEFGHIJKLMNOPQRSTUVWXYZabcdefghijklmnopqrstuvwxyz0123456789+/".toList

/-- The URL-safe base64 alphabet of RFC 4648 section 5. -/
def b64UrlChars : List Char :=
  "ABCDEFGHIJKLMNOPQRSTUVWXYZabcdefghijklmnopqrstuvwxyz0123456789-_".toList

/-- Character of the standard alphabet at a 6-bit index. -/
def b64Std (n : Nat) : Char := b64StdChars.getD (n % 64) 'A'

/-- Character of the URL-safe alphabet at a 6-bit index. -/
def b64Url (n : Nat) : Char := b64UrlChars.getD (n % 64) 'A'

/-- The browser primitive `btoa` applied to the digest's bytes
(part_001 line 152 turns the `Uint8Array` into a binary string first):
standard base64 with `=` padding, four characters per three bytes. -/
def btoaChars : List Nat → List Char
  | [] => []
  | [b1] => [b64Std (b1 / 4), b64Std (b1 % 4 * 16), '=', '=']
  | [b1, b2] =>
    [b64Std (b1 / 4), b64Std (b1 % 4 * 16 + b2 / 16), b64Std (b2 % 16 * 4), '=']
  | b1 :: b2 :: b3 :: rest =>
    b64Std (b1 / 4) :: b64Std (b1 % 4 * 16 + b2 / 16)
      :: b64Std (b2 % 16 * 4 + b3 / 64) :: b64Std (b3 % 64) :: btoaChars rest

/-- Base64url without padding, following the spec's words ("base64url
encoding with `=` padding stripped, `+` mapped to `-`, `/` mapped to
`_`"): the comparison definition for the refinement claim C5. -/
def base64urlChars : List Nat → List Char
  | [] => []
  | [b1] => [b64Url (b1 / 4), b64Url (b1 % 4 * 16)]
  | [b1, b2] =>
    [b64Url (b1 / 4), b64Url (b1 % 4 * 16 + b2 / 16), b64Url (b2 % 16 * 4)]
  | b1 :: b2 :: b3 :: rest =>
    b64Url (b1 / 4) :: b64Url (b1 % 4 * 16 + b2 / 16)
      :: b64Url (b2 % 16 * 4 + b3 / 64) :: b64Url (b3 % 64) :: base64urlChars rest

/-- The `.replace(/=/g, "")` step of part_001 line 153. -/
def stripEquals (l : List Char) : List Char := l.filter (fun c => c != '=')

/-- The `.replace(/\+/g, "-")` step of part_001 line 154. -/
def plusToMinus (l : List Char) : List Char :=
  l.map (fun c => if c == '+' then '-' else c)

/-- The `.replace(/\//g, "_")` step of part_001 line 155. -/
def slashToUnderscore (l : List Char) : List Char :=
  l.map (fun c => if c == '/' then '_' else c)

/-- The three replace steps in source order. -/
def cleanupChars (l : List Char) : List Char :=
  slashToUnderscore (plusToMinus (stripEquals l))

/-- UTF-8 bytes of a string, as produced by `TextEncoder.encode`. -/
def utf8Bytes (s : String) : List Nat := s.toUTF8.toList.map (fun b => b.toNat)

/-- Embedding of `generateCodeChallenge` (part_001 lines 147-156) with
the digest primitive (`window.crypto.subtle.digest("SHA-256", ...)`, a
host call) passed in as a function from the verifier's UTF-8 bytes to
the digest bytes. -/
def generateCodeChallenge (digest : List Nat → List Nat) (verifier : String) : String :=
  String.mk (cleanupChars (btoaChars (digest (utf8Bytes verifier))))

theorem cleanupChars_nil : cleanupChars [] = [] := rfl

theorem cleanupChars_cons_eq (l : List Char) :
    cleanupChars ('=' :: l) = cleanupChars l := by
  simp [cleanupChars, stripEquals, plusToMinus, slashToUnderscore, List.filter_cons]

theorem cleanupChars_cons_ne (c : Char) (l : List Char) (h : c ≠ '=') :
    cleanupChars (c :: l)
      = (if (if c == '+' then '-' else c) == '/' then '_'
          else (if c == '+' then '-' else c)) :: cleanupChars l := by
  simp only [cleanupChars, stripEquals, plusToMinus, slashToUnderscore, List.filter_cons]
  rw [if_pos (by simp [bne_iff_ne, h]), List.map_cons, List.map_cons]

theorem b64_table (m : Nat) (hm : m < 64) :
    b64StdChars.getD m 'A' ≠ '='
    ∧ (if (if b64StdChars.getD m 'A' == '+' then '-' else b64StdChars.getD m 'A') == '/'
        then '_' else (if b64StdChars.getD m 'A' == '+' then '-' else b64StdChars.getD m 'A'))
      = b64UrlChars.getD m 'A' := by
  revert m
  decide

theorem b64Std_ne_eq (n : Nat) : b64Std n ≠ '=' :=
  (b64_table (n % 64) (Nat.mod_lt n (by omega))).1

theorem b64Std_step (n : Nat) :
    (if (if b64Std n == '+' then '-' else b64Std n) == '/' then '_'
      else (if b64Std n == '+' then '-' else b64Std n)) = b64Url n :=
  (b64_table (n % 64) (Nat.mod_lt n (by omega))).2

/-- Stripping the padding and replacing `+` and `/` in the output of
`btoa` is exactly unpadded base64url. -/
theorem cleanup_btoa_eq_base64url (bytes : List Nat) :
    cleanupChars (btoaChars bytes) = base64urlChars bytes := by
  induction bytes using btoaChars.induct with
  | case1 => rfl
  | case2 b1 =>
    rw [btoaChars, base64urlChars,
      cleanupChars_cons_ne _ _ (b64Std_ne_eq _), cleanupChars_cons_ne _ _ (b64Std_ne_eq _),
      cleanupChars_cons_eq, cleanupChars_cons_eq, cleanupChars_nil,
      b64Std_step, b64Std_step]
  | case3 b1 b2 =>
    rw [btoaChars, base64urlChars,
      cleanupChars_cons_ne _ _ (b64Std_ne_eq _), cleanupChars_cons_ne _ _ (b64Std_ne_eq _),
      cleanupChars_cons_ne _ _ (b64Std_ne_eq _),
      cleanupChars_cons_eq, cleanupChars_nil,
      b64Std_step, b64Std_step, b64Std_step]
  | case4 b1 b2 b3 rest ih =>
    rw [btoaChars, base64urlChars,
      cleanupChars_cons_ne _ _ (b64Std_ne_eq _), cleanupChars_cons_ne _ _ (b64Std_ne_eq _),
      cleanupChars_cons_ne _ _ (b64Std_ne_eq _), cleanupChars_cons_ne _ _ (b64Std_ne_eq _),
      b64Std_step, b64Std_step, b64Std_step, b64Std_step, ih]

/-- The three replace steps leave no `=`, `+` or `/` in any string. -/
theorem cleanupChars_no_forbidden (l : List Char) :
    ∀ c ∈ cleanupChars l, c ≠ '=' ∧ c ≠ '+' ∧ c ≠ '/' := by
  intro c hc
  simp only [cleanupChars, slashToUnderscore, plusToMinus, stripEquals, List.mem_map,
    List.mem_filter] at hc
  obtain ⟨a, ⟨b, ⟨_, hbne⟩, hba⟩, hac⟩ := hc
  have hbe : b ≠ '=' := by simpa [bne_iff_ne] using hbne
  subst hac
  subst hba
  by_cases hp : b = '+'
  · subst hp
    decide
  · have ht : (if b == '+' then '-' else b) = b := by simp [beq_iff_eq, hp]
    rw [ht]
    by_cases hs : b = '/'
    · subst hs
      decide
    · have hts : (if b == '/' then '_' else b) = b := by simp [beq_iff_eq, hs]
      rw [hts]
      exact ⟨hbe, hp, hs⟩

/-- C5: the code challenge is exactly the unpadded base64url encoding of
the digest of the verifier's UTF-8 bytes; the computation is
deterministic; and the output contains no `=`, `+` or `/`. -/
theorem generateCodeChallenge_spec (digest : List Nat → List Nat) (verifier : String) :
    (generateCodeChallenge digest verifier).data
        = base64urlChars (digest (utf8Bytes verifier))
    ∧ generateCodeChallenge digest verifier = generateCodeChallenge digest verifier
    ∧ ∀ c ∈ (generateCodeChallenge digest verifier).data,
        c ≠ '=' ∧ c ≠ '+' ∧ c ≠ '/' := by
  refine ⟨cleanup_btoa_eq_base64url _, rfl, ?_⟩
  intro c hc
  exact cleanupChars_no_forbidden _ c hc
